import Mathlib

/-
Shallow embedding of `src/examples/09_urdf_visualizer.py` (the viser URDF
visualizer example script).

The script wires two external libraries together: a robot-description loader
(`load_robot_description`) and the viser GUI/scene server.  We embed the
script's own logic faithfully:

* Numeric joint values (Python floats) are modelled as rationals `ℚ`; the
  constant `numpy.pi` is modelled by the exact rational value of the IEEE-754
  double that `onp.pi` denotes.
* The external loader is a parameter (`Env.load`), returning `Except` so that
  a raised exception is an `.error`.
* GUI side effects (scene reset, modal, slider creation/removal, calls to
  `urdf.update_cfg`) are recorded in an explicit `Action` trace.
* The mutable lists `gui_joints` / `initial_angles` of `main` form the
  `GuiState` threaded through the operations.
-/

namespace UrdfVisualizer

/-- Joint limits as returned for one actuated joint: an optional lower and an
optional upper bound (either may be `None` in the URDF). -/
structure JointLimits where
  lower : Option ℚ
  upper : Option ℚ
  deriving DecidableEq

/-- One joint of a robot description: its name, whether it is actuated (has a
controllable degree of freedom, as opposed to a fixed joint), and its parsed
limits. -/
structure UrdfJoint where
  name : String
  actuated : Bool
  limits : JointLimits
  deriving DecidableEq

/-- A loaded robot description: the list of its joints, in order. -/
structure Urdf where
  joints : List UrdfJoint
  deriving DecidableEq

/-- Modelled from the spec: `ViserUrdf.get_actuated_joint_limits` is part of
the viser library (`viser.extras`), outside `src/`.  The spec defines an
actuated joint as "a joint with a controllable degree of freedom (as opposed
to fixed joints)" and says the helper lists the actuated joints and their
limits; so the helper is modelled as returning the name and parsed limits of
each actuated joint of the loaded description, in order. -/
def Urdf.get_actuated_joint_limits (u : Urdf) : List (String × JointLimits) :=
  (u.joints.filter (fun j => j.actuated)).map (fun j => (j.name, j.limits))

/-- Exact rational value of the IEEE-754 double denoted by `numpy.pi`, the
constant `onp.pi` used on lines 73-74 of the script: `884279719003555 / 2^48`,
written in reduced form so that it evaluates by kernel reduction. -/
def piVal : ℚ := Rat.mk' 884279719003555 281474976710656 (by norm_num) (by norm_num)

/-- A GUI slider handle as created by `server.gui.add_slider` (lines 77-83):
its label, bounds, step, current value, and (for the model) the initial value
it was created with. -/
structure Slider where
  label : String
  min : ℚ
  max : ℚ
  step : ℚ
  value : ℚ
  initialValue : ℚ
  deriving DecidableEq

/-- Construction of the slider for one actuated joint, lines 72-83 of the
script: a missing lower bound defaults to `-onp.pi`, a missing upper bound to
`onp.pi`; the initial angle is `0.0` if `lower < 0 and upper > 0`, else the
midpoint `(lower + upper) / 2.0`. -/
def makeSlider (joint_name : String) (lim : JointLimits) : Slider :=
  let lower : ℚ := lim.lower.getD (-piVal)
  let upper : ℚ := lim.upper.getD piVal
  let initial_angle : ℚ := if lower < 0 ∧ 0 < upper then 0 else (lower + upper) / 2
  { label := joint_name, min := lower, max := upper, step := 1 / 1000,
    value := initial_angle, initialValue := initial_angle }

/-- The mutable GUI state of `main`: the list `gui_joints` of live slider
handles and the list `initial_angles` (lines 49-50). -/
structure GuiState where
  guiJoints : List Slider
  initialAngles : List ℚ
  deriving DecidableEq

/-- Observable side effects performed by the script, recorded as a trace. -/
inductive Action where
  | sceneReset : Action
  | addModal : String → Action
  | addMarkdown : String → Action
  | loadDescription : String → Action
  | closeModal : Action
  | removeSlider : String → Action
  | addSlider : String → Action
  | registerCallback : String → Action
  | updateCfg : List ℚ → Action
  deriving DecidableEq

/-- The external `load_robot_description` resolver, abstracted as an
environment; a raised exception is an `.error`. -/
structure Env where
  load : String → Except String Urdf

/-- Result of a successful `update_robot_model` call: the new GUI state, the
robot description that was passed to `ViserUrdf`, and the trace of side
effects performed. -/
structure UpdateResult where
  state : GuiState
  urdf : Urdf
  trace : List Action
  deriving DecidableEq

/-- One iteration of the slider-creation loop (lines 72-89): build the slider
for the joint, add it to the GUI, append it to `gui_joints` and its initial
angle to `initial_angles`, and register its `on_update` callback. -/
def addJointSlider (acc : GuiState × List Action) (p : String × JointLimits) :
    GuiState × List Action :=
  let slider := makeSlider p.1 p.2
  ({ guiJoints := acc.1.guiJoints ++ [slider],
     initialAngles := acc.1.initialAngles ++ [slider.initialValue] },
   acc.2 ++ [Action.addSlider p.1, Action.registerCallback p.1])

/-- The body of `update_robot_model` (lines 52-92): reset the scene, show the
loading modal, load the named description and hand it to `ViserUrdf`, close
the modal, remove all previous sliders and clear `gui_joints` (note that
`initial_angles` is NOT cleared), create one slider per actuated joint, and
finally apply the initial joint configuration with `update_cfg`.  A load
failure propagates (there is no `try` in the script). -/
def update_robot_model (env : Env) (robot_name : String) (s : GuiState) :
    Except String UpdateResult :=
  match env.load robot_name with
  | .error e => .error e
  | .ok u =>
    let trace0 : List Action :=
      [Action.sceneReset, Action.addModal "Loading URDF...",
       Action.addMarkdown "See terminal for progress!",
       Action.loadDescription robot_name, Action.closeModal]
      ++ s.guiJoints.map (fun sl => Action.removeSlider sl.label)
    let cleared : GuiState := { guiJoints := [], initialAngles := s.initialAngles }
    let loop := (u.get_actuated_joint_limits).foldl addJointSlider (cleared, trace0)
    let cfg : List ℚ := loop.1.guiJoints.map (fun g => g.value)
    .ok { state := loop.1, urdf := u, trace := loop.2 ++ [Action.updateCfg cfg] }

/-- The dropdown's `on_update` callback (lines 94-95): call
`update_robot_model` with the dropdown's current value. -/
def onDropdownUpdate (env : Env) (s : GuiState) (dropdown_value : String) :
    Except String UpdateResult :=
  update_robot_model env dropdown_value s

/-- The `update_cfg` calls performed by one slider's `on_update` callback
(line 85): exactly one call, whose argument is the list of current values of
all sliders in `gui_joints`, in order. -/
def sliderCallbackCalls (s : GuiState) : List (List ℚ) :=
  [s.guiJoints.map (fun g => g.value)]

/-- Set the value of the `i`-th slider (what the GUI does when the user moves
that slider); out-of-range indices leave the state unchanged. -/
def setSliderValue (s : GuiState) (i : Nat) (v : ℚ) : GuiState :=
  match s.guiJoints.get? i with
  | none => s
  | some sl => { s with guiJoints := s.guiJoints.set i { sl with value := v } }

/-- Modelled from the spec: "on slider change" the GUI (outside `src/`)
stores the slider's new value and fires the slider's registered `on_update`
callback; the callback body itself is line 85 of the script
(`sliderCallbackCalls`).  Returns the new state and the list of `update_cfg`
calls made. -/
def onSliderChange (s : GuiState) (i : Nat) (v : ℚ) : GuiState × List (List ℚ) :=
  let s1 := setSliderValue s i v
  (s1, sliderCallbackCalls s1)

/-- The Reset button's `on_click` handler (lines 100-103): for each pair in
`zip(gui_joints, initial_angles)` set the slider's value to the stored
initial angle; sliders beyond the length of the shorter list are untouched. -/
def resetClick (s : GuiState) : GuiState :=
  { s with guiJoints :=
      (s.guiJoints.zip s.initialAngles).map (fun p => { p.1 with value := p.2 })
      ++ s.guiJoints.drop s.initialAngles.length }

/-- The per-joint GUI actions of the slider-creation loop, in loop order. -/
def jointActions (l : List (String × JointLimits)) : List Action :=
  l.foldr (fun p acc => Action.addSlider p.1 :: Action.registerCallback p.1 :: acc) []

/-- Sequence of steps claim C4 asserts `update_robot_model` performs, written
from that claim's words ("resolve the robot description named by the dropdown
selection, obtain the actuated joints and their limits from the helper, create
one slider per such joint, and register the slider callbacks"; "no other
behavior occurs"), for comparison with the actual trace. -/
def claimedUpdateTrace (robot_name : String) (u : Urdf) : List Action :=
  Action.loadDescription robot_name :: jointActions u.get_actuated_joint_limits

/-! Concrete inputs used by witnesses and counterexamples. -/

/-- A small robot description with two actuated joints and one fixed joint. -/
def sampleUrdf : Urdf :=
  { joints :=
      [ { name := "shoulder", actuated := true, limits := { lower := some (-1), upper := some 2 } },
        { name := "base_weld", actuated := false, limits := { lower := none, upper := none } },
        { name := "elbow", actuated := true, limits := { lower := some 1, upper := some 3 } } ] }

/-- An environment resolving one name to `sampleUrdf` and failing otherwise. -/
def sampleEnv : Env :=
  { load := fun n => if n = "panda_description" then .ok sampleUrdf else .error "unknown robot" }

/-- The empty GUI state at the start of `main`. -/
def emptyState : GuiState := { guiJoints := [], initialAngles := [] }

/-! Characterization lemmas for the slider-creation loop. -/

/-- The slider-creation loop appends one slider per listed joint (built by
`makeSlider`), appends the matching initial angles, and emits the per-joint
GUI actions after the accumulated trace. -/
theorem foldl_addJointSlider (l : List (String × JointLimits)) (s0 : GuiState)
    (t0 : List Action) :
    l.foldl addJointSlider (s0, t0)
      = ({ guiJoints := s0.guiJoints ++ l.map (fun p => makeSlider p.1 p.2),
           initialAngles :=
             s0.initialAngles ++ l.map (fun p => (makeSlider p.1 p.2).initialValue) },
         t0 ++ jointActions l) := by
  induction l generalizing s0 t0 with
  | nil => simp [jointActions]
  | cons p l ih =>
    simp only [List.foldl_cons, addJointSlider, ih, jointActions, List.map_cons]
    simp [List.append_assoc]

/-- Explicit form of a successful `update_robot_model` call: the new
`gui_joints` list is exactly one `makeSlider` result per actuated joint, the
initial angles are appended to the old `initial_angles`, the loaded
description is returned, and the trace is the modal/load/removal prefix, the
per-joint actions, and the final `update_cfg` of the initial configuration. -/
theorem update_robot_model_ok (env : Env) (robot_name : String) (s : GuiState)
    (u : Urdf) (hload : env.load robot_name = .ok u) :
    update_robot_model env robot_name s
      = .ok { state :=
                { guiJoints :=
                    (u.get_actuated_joint_limits).map (fun p => makeSlider p.1 p.2),
                  initialAngles :=
                    s.initialAngles
                      ++ (u.get_actuated_joint_limits).map
                          (fun p => (makeSlider p.1 p.2).initialValue) },
              urdf := u,
              trace :=
                ([Action.sceneReset, Action.addModal "Loading URDF...",
                  Action.addMarkdown "See terminal for progress!",
                  Action.loadDescription robot_name, Action.closeModal]
                  ++ s.guiJoints.map (fun sl => Action.removeSlider sl.label))
                  ++ jointActions u.get_actuated_joint_limits
                  ++ [Action.updateCfg
                      ((u.get_actuated_joint_limits).map
                        (fun p => (makeSlider p.1 p.2).value))] } := by
  simp only [update_robot_model, hload, foldl_addJointSlider]
  simp [List.append_assoc]

/-- Pairing a list with its image under `f` pairs each element with its own
image. -/
theorem snd_eq_of_mem_zip_map {α β : Type} (f : α → β) (l : List α) :
    ∀ p ∈ l.zip (l.map f), p.2 = f p.1 := by
  induction l with
  | nil => simp
  | cons a l ih =>
    intro p hp
    simp only [List.map_cons, List.zip_cons_cons, List.mem_cons] at hp
    rcases hp with h | h
    · subst h; rfl
    · exact ih p h

/-- Mapping a function over a list updated at an index updates the mapped
list at that index with the image. -/
theorem map_set_eq_set_map {α β : Type} (f : α → β) (l : List α) (i : Nat) (a : α) :
    (l.set i a).map f = (l.map f).set i (f a) := by
  induction l generalizing i with
  | nil => simp
  | cons b l ih =>
    cases i with
    | zero => simp
    | succ i => simp [List.set, ih]

/-- C1: a successful `update_robot_model` leaves the GUI with exactly one
slider per actuated joint of the newly loaded robot, labeled with that
joint's name, in order; the slider list is wholly replaced, so no slider of
the previous model survives and non-actuated joints get no slider. -/
theorem update_creates_one_slider_per_actuated_joint (env : Env) (robot_name : String)
    (s : GuiState) (u : Urdf) (hload : env.load robot_name = .ok u) :
    (update_robot_model env robot_name s).map
        (fun r => r.state.guiJoints.map (fun sl => sl.label))
      = .ok ((u.joints.filter (fun j => j.actuated)).map (fun j => j.name)) := by
  rw [update_robot_model_ok env robot_name s u hload]
  simp [Urdf.get_actuated_joint_limits, makeSlider, List.map_map, Function.comp,
    Except.map]

/-- Witness for C1 at a concrete robot with two actuated joints and one
fixed joint: exactly the two actuated joints get sliders, labeled by name. -/
theorem update_creates_one_slider_per_actuated_joint_witness :
    (update_robot_model sampleEnv "panda_description" emptyState).map
        (fun r => r.state.guiJoints.map (fun sl => sl.label))
      = .ok ["shoulder", "elbow"] := by
  rw [update_creates_one_slider_per_actuated_joint sampleEnv "panda_description"
    emptyState sampleUrdf rfl]
  rfl

/-- C2: moving a slider makes its callback call `update_cfg` exactly once,
with the vector of current values of all sliders in `gui_joints` in creation
order: the previous value vector updated at the moved slider's index. -/
theorem slider_update_calls_update_cfg_once (s : GuiState) (i : Nat) (v : ℚ)
    (h : i < s.guiJoints.length) :
    (onSliderChange s i v).2 = [(s.guiJoints.map (fun g => g.value)).set i v] := by
  unfold onSliderChange sliderCallbackCalls setSliderValue
  rw [List.get?_eq_get h]
  simp [map_set_eq_set_map]

/-- Witness for C2 on a two-slider state: moving slider 0 to 1/2 produces the
single call `update_cfg [1/2, 0]`. -/
theorem slider_update_calls_update_cfg_once_witness :
    (onSliderChange
        { guiJoints := [makeSlider "a" { lower := some (-1), upper := some 3 },
                        makeSlider "b" { lower := some (-2), upper := some 2 }],
          initialAngles := [0, 0] } 0 (1 / 2)).2
      = [[1 / 2, 0]] := by
  rw [slider_update_calls_update_cfg_once _ 0 (1 / 2) (by decide)]
  rfl

/-- C5: the robot description handed to `ViserUrdf` by the dropdown callback
is exactly the one the loader resolves for the current dropdown value (and a
loader failure is passed through). -/
theorem loaded_description_matches_dropdown (env : Env) (s : GuiState) (v : String) :
    (onDropdownUpdate env s v).map (fun r => r.urdf) = env.load v := by
  cases h : env.load v with
  | error e => simp [onDropdownUpdate, update_robot_model, h, Except.map]
  | ok u => simp [onDropdownUpdate, update_robot_model, h, Except.map]

/-- An environment whose loader always raises. -/
def failEnv : Env := { load := fun _ => .error "description not found" }

/-- C6: the script wraps the load in no `try`/`except`: a loader error is
propagated unchanged by `update_robot_model`. -/
theorem load_error_propagates (env : Env) (robot_name : String) (s : GuiState)
    (e : String) (h : env.load robot_name = .error e) :
    update_robot_model env robot_name s = .error e := by
  simp [update_robot_model, h]

/-- Witness for C6: a failing loader's error comes back unchanged. -/
theorem load_error_propagates_witness :
    update_robot_model failEnv "ur5_description" emptyState
      = .error "description not found" :=
  load_error_propagates failEnv "ur5_description" emptyState "description not found" rfl

/-- A tiny robot with two actuated joints, one with both limits present and
one with an absent lower limit. -/
def tinyUrdf : Urdf :=
  { joints :=
      [ { name := "j1", actuated := true, limits := { lower := some (-1), upper := some 2 } },
        { name := "j2", actuated := true, limits := { lower := none, upper := some 1 } } ] }

/-- An environment resolving every name to `tinyUrdf`. -/
def tinyEnv : Env := { load := fun _ => .ok tinyUrdf }

/-- The result of loading `tinyUrdf` into the empty GUI state, written out. -/
def tinyResult : UpdateResult :=
  { state :=
      { guiJoints := [makeSlider "j1" { lower := some (-1), upper := some 2 },
                      makeSlider "j2" { lower := none, upper := some 1 }],
        initialAngles := [0, 0] },
    urdf := tinyUrdf,
    trace :=
      [Action.sceneReset, Action.addModal "Loading URDF...",
       Action.addMarkdown "See terminal for progress!",
       Action.loadDescription "go2_description", Action.closeModal,
       Action.addSlider "j1", Action.registerCallback "j1",
       Action.addSlider "j2", Action.registerCallback "j2",
       Action.updateCfg [0, 0]] }

/-- C3: pairing each actuated joint with the slider created for it, a joint
whose lower and upper URDF limits are both present gets a slider whose
minimum is the parsed lower limit and whose maximum is the parsed upper
limit. -/
theorem slider_bounds_match_present_limits (env : Env) (robot_name : String)
    (s : GuiState) (u : Urdf) (r : UpdateResult)
    (hload : env.load robot_name = .ok u)
    (hr : update_robot_model env robot_name s = .ok r) :
    ∀ p ∈ (u.get_actuated_joint_limits).zip r.state.guiJoints,
      ∀ lo hi, p.1.2.lower = some lo → p.1.2.upper = some hi →
        p.2.min = lo ∧ p.2.max = hi := by
  rw [update_robot_model_ok env robot_name s u hload] at hr
  injection hr with hr
  subst hr
  intro p hp lo hi hl hu
  have h2 := snd_eq_of_mem_zip_map (fun q => makeSlider q.1 q.2)
    u.get_actuated_joint_limits p hp
  rw [h2]
  exact ⟨by simp [makeSlider, hl], by simp [makeSlider, hu]⟩

/-- Witness for C3: the joint with limits `[-1, 2]` gets a slider with
minimum `-1` and maximum `2`. -/
theorem slider_bounds_match_present_limits_witness :
    (makeSlider "j1" { lower := some (-1), upper := some 2 }).min = -1
      ∧ (makeSlider "j1" { lower := some (-1), upper := some 2 }).max = 2 :=
  slider_bounds_match_present_limits tinyEnv "go2_description" emptyState tinyUrdf
    tinyResult rfl rfl
    (("j1", { lower := some (-1), upper := some 2 }),
      makeSlider "j1" { lower := some (-1), upper := some 2 })
    (List.mem_cons_self _ _) (-1) 2 rfl rfl

/-- C7: pairing each actuated joint with the slider created for it, an absent
lower limit yields a slider minimum of `-pi` and an absent upper limit a
slider maximum of `pi`, while a present limit is used unchanged. -/
theorem absent_limits_default_to_pi (env : Env) (robot_name : String)
    (s : GuiState) (u : Urdf) (r : UpdateResult)
    (hload : env.load robot_name = .ok u)
    (hr : update_robot_model env robot_name s = .ok r) :
    ∀ p ∈ (u.get_actuated_joint_limits).zip r.state.guiJoints,
      (p.1.2.lower = none → p.2.min = -piVal)
      ∧ (∀ lo, p.1.2.lower = some lo → p.2.min = lo)
      ∧ (p.1.2.upper = none → p.2.max = piVal)
      ∧ (∀ hi, p.1.2.upper = some hi → p.2.max = hi) := by
  rw [update_robot_model_ok env robot_name s u hload] at hr
  injection hr with hr
  subst hr
  intro p hp
  have h2 := snd_eq_of_mem_zip_map (fun q => makeSlider q.1 q.2)
    u.get_actuated_joint_limits p hp
  rw [h2]
  exact ⟨fun hl => by simp [makeSlider, hl],
    fun lo hl => by simp [makeSlider, hl],
    fun hu => by simp [makeSlider, hu],
    fun hi hu => by simp [makeSlider, hu]⟩

/-- Witness for C7: the joint with an absent lower limit and upper limit `1`
gets a slider with minimum `-pi` and maximum `1`. -/
theorem absent_limits_default_to_pi_witness :
    (makeSlider "j2" { lower := none, upper := some 1 }).min = -piVal
      ∧ (makeSlider "j2" { lower := none, upper := some 1 }).max = 1 := by
  have h := absent_limits_default_to_pi tinyEnv "go2_description" emptyState tinyUrdf
    tinyResult rfl rfl
    (("j2", { lower := none, upper := some 1 }),
      makeSlider "j2" { lower := none, upper := some 1 })
    (List.mem_cons_of_mem _ (List.mem_cons_self _ _))
  exact ⟨h.1 rfl, h.2.2.2 1 rfl⟩

/-- C8: every slider created by a model update has initial value `0` exactly
when its (defaulted) bounds straddle zero, otherwise the midpoint of its
bounds; whenever the bounds are ordered, the initial value lies between
them. -/
theorem initial_value_rule_and_in_range (env : Env) (robot_name : String)
    (s : GuiState) (u : Urdf) (r : UpdateResult)
    (hload : env.load robot_name = .ok u)
    (hr : update_robot_model env robot_name s = .ok r) :
    ∀ sl ∈ r.state.guiJoints,
      (sl.min < 0 ∧ 0 < sl.max → sl.value = 0)
      ∧ (¬(sl.min < 0 ∧ 0 < sl.max) → sl.value = (sl.min + sl.max) / 2)
      ∧ (sl.min ≤ sl.max → sl.min ≤ sl.value ∧ sl.value ≤ sl.max) := by
  rw [update_robot_model_ok env robot_name s u hload] at hr
  injection hr with hr
  subst hr
  intro sl hsl
  rcases List.mem_map.1 hsl with ⟨p, hp, rfl⟩
  simp only [makeSlider]
  by_cases hc : p.2.lower.getD (-piVal) < 0 ∧ 0 < p.2.upper.getD piVal
  · simp only [if_pos hc]
    exact ⟨fun _ => by simp, fun hn => absurd hc hn,
      fun _ => ⟨le_of_lt hc.1, le_of_lt hc.2⟩⟩
  · simp only [if_neg hc]
    refine ⟨fun h => absurd h hc, fun _ => by simp, fun hle => ⟨?_, ?_⟩⟩
    · linarith
    · linarith

/-- Witness for C8: the slider for the joint with limits `[-1, 2]` has its
initial value between its bounds. -/
theorem initial_value_rule_and_in_range_witness :
    (makeSlider "j1" { lower := some (-1), upper := some 2 }).min
        ≤ (makeSlider "j1" { lower := some (-1), upper := some 2 }).value
      ∧ (makeSlider "j1" { lower := some (-1), upper := some 2 }).value
        ≤ (makeSlider "j1" { lower := some (-1), upper := some 2 }).max :=
  (initial_value_rule_and_in_range tinyEnv "go2_description" emptyState tinyUrdf
    tinyResult rfl rfl
    (makeSlider "j1" { lower := some (-1), upper := some 2 })
    (List.mem_cons_self _ _)).2.2 (by decide)

/-- A robot description with no joints. -/
def emptyUrdf : Urdf := { joints := [] }

/-- An environment resolving every name to the empty robot. -/
def emptyEnv : Env := { load := fun _ => .ok emptyUrdf }

/-- C4 (counterexample): at a concrete input the trace of `update_robot_model`
is not the sequence the claim allows: it also resets the scene, opens and
closes a loading modal, and applies the initial configuration with
`update_cfg`. -/
theorem update_has_side_effects_beyond_claimed :
    (update_robot_model emptyEnv "cassie_description" emptyState).map (fun r => r.trace)
      = .ok [Action.sceneReset, Action.addModal "Loading URDF...",
             Action.addMarkdown "See terminal for progress!",
             Action.loadDescription "cassie_description", Action.closeModal,
             Action.updateCfg []]
    ∧ claimedUpdateTrace "cassie_description" emptyUrdf
        = [Action.loadDescription "cassie_description"]
    ∧ (update_robot_model emptyEnv "cassie_description" emptyState).map (fun r => r.trace)
        ≠ .ok (claimedUpdateTrace "cassie_description" emptyUrdf) := by
  refine ⟨rfl, rfl, ?_⟩
  intro h
  rw [update_robot_model_ok emptyEnv "cassie_description" emptyState emptyUrdf rfl] at h
  simp [claimedUpdateTrace, jointActions, Urdf.get_actuated_joint_limits, emptyUrdf,
    Except.map] at h

/-- C4 (amended): each successful model update performs exactly this sequence
of steps in this order: reset the scene, open the loading modal and its
markdown note, resolve the robot description named by the dropdown selection,
close the modal, remove every previous slider, then per actuated joint create
a slider and register its callback, and finally apply the initial joint
configuration via `update_cfg`. -/
theorem update_performs_full_gui_sequence (env : Env) (robot_name : String)
    (s : GuiState) (u : Urdf) (hload : env.load robot_name = .ok u) :
    (update_robot_model env robot_name s).map (fun r => r.trace)
      = .ok ([Action.sceneReset, Action.addModal "Loading URDF...",
              Action.addMarkdown "See terminal for progress!",
              Action.loadDescription robot_name, Action.closeModal]
             ++ s.guiJoints.map (fun sl => Action.removeSlider sl.label)
             ++ jointActions u.get_actuated_joint_limits
             ++ [Action.updateCfg ((u.get_actuated_joint_limits).map
                   (fun p => (makeSlider p.1 p.2).value))]) := by
  rw [update_robot_model_ok env robot_name s u hload]
  simp [Except.map, List.append_assoc]

/-- Witness for amended C4 at a concrete two-joint robot: the full trace,
written out. -/
theorem update_performs_full_gui_sequence_witness :
    (update_robot_model tinyEnv "go2_description" emptyState).map (fun r => r.trace)
      = .ok [Action.sceneReset, Action.addModal "Loading URDF...",
             Action.addMarkdown "See terminal for progress!",
             Action.loadDescription "go2_description", Action.closeModal,
             Action.addSlider "j1", Action.registerCallback "j1",
             Action.addSlider "j2", Action.registerCallback "j2",
             Action.updateCfg [0, 0]] := by
  rw [update_performs_full_gui_sequence tinyEnv "go2_description" emptyState tinyUrdf rfl]
  rfl

/-- Successive model loads from the dropdown, threading the GUI state. -/
def runLoads (env : Env) (names : List String) (s : GuiState) : Except String GuiState :=
  match names with
  | [] => .ok s
  | n :: rest =>
    match update_robot_model env n s with
    | .error e => .error e
    | .ok r => runLoads env rest r.state

/-- A robot whose single joint has limits `[1, 3]`, so its initial angle is
the midpoint `2`. -/
def urdfA : Urdf :=
  { joints := [{ name := "a", actuated := true, limits := { lower := some 1, upper := some 3 } }] }

/-- A robot whose single joint has limits `[-1, 1]`, so its initial angle is
`0`. -/
def urdfB : Urdf :=
  { joints := [{ name := "b", actuated := true, limits := { lower := some (-1), upper := some 1 } }] }

/-- An environment with two robots, selected by name. -/
def envAB : Env := { load := fun n => if n = "A" then .ok urdfA else .ok urdfB }

/-- C9 (demonstration of the code bug): `update_robot_model` clears
`gui_joints` but never clears `initial_angles`, so after loading robot `A`
(initial angle `2`) and then robot `B` (initial angle `0`) the state has one
slider but two stored initial angles, and clicking Reset sets robot `B`'s
slider to `2`, robot `A`'s stale initial angle, instead of its own initial
angle `0`. -/
theorem reset_uses_stale_initial_angles :
    (runLoads envAB ["A", "B"] emptyState).map (fun st =>
        (st.guiJoints.length, st.initialAngles.length,
         (resetClick st).guiJoints.map (fun g => g.value),
         st.guiJoints.map (fun g => g.initialValue)))
      = .ok (1, 2, [2], [0]) := by
  have h1 := update_robot_model_ok envAB "A" emptyState urdfA rfl
  have h2 := update_robot_model_ok envAB "B"
    { guiJoints := (urdfA.get_actuated_joint_limits).map (fun p => makeSlider p.1 p.2),
      initialAngles :=
        emptyState.initialAngles
          ++ (urdfA.get_actuated_joint_limits).map
              (fun p => (makeSlider p.1 p.2).initialValue) }
    urdfB rfl
  simp only [runLoads, h1, h2]
  simp only [Except.map, resetClick, Urdf.get_actuated_joint_limits, urdfA, urdfB,
    emptyState, makeSlider]
  norm_num

end UrdfVisualizer
